import Mathlib

/-!
Verification development for the frame orchestrator in src/main.cpp of the
RTXDI sample renderer (class SceneRenderer).  The definitions below are a
shallow embedding of the orchestration state and of the per-frame control
flow: resource lifecycle decisions, the frame sequencer, the temporal and
accumulation policy, and the rendering-mode selector.  External collaborators
(GPU device, texture cache, scene, passes) are modelled at their interface
boundary only: a pass execution is recorded as an event, a texture is
represented by its dimensions, and the camera view matrix is an abstract
type compared for exact equality, as the source does.
-/

set_option maxRecDepth 4000

namespace RTXDI

/-- Checkerboard sampling mode of the resampling context
(rtxdi::CheckerboardMode, read at main.cpp line 753 and 881). -/
inductive CheckerboardMode
  | Off
  | Black
  | White
deriving DecidableEq

/-- The rendering mode enumeration dispatched on at main.cpp lines 908-936.
The specification names these DirectResamplingOnly, DirectResamplingWithBrdfMIS,
DirectResamplingWithBrdfIndirect and BrdfDirectOnly; the source spells the
resampling family ReStir. -/
inductive RenderingMode
  | BrdfDirectOnly
  | ReStirDirectOnly
  | ReStirDirectBrdfMIS
  | ReStirDirectBrdfIndirect
deriving DecidableEq

/-- FrameStepMode, main.cpp lines 115-120. -/
inductive FrameStepMode
  | Disabled
  | Wait
  | Step
deriving DecidableEq

/-- A texture or framebuffer extent in pixels. -/
structure Size where
  width : Nat
  height : Nat
deriving DecidableEq

/-- The slice of rtxdi::ContextParameters the orchestrator reads and writes:
RenderWidth and RenderHeight (set at main.cpp lines 538-539) and the
checkerboard sampling mode (read at lines 753 and 881). -/
structure ContextParameters where
  renderWidth : Nat
  renderHeight : Nat
  checkerboardSamplingMode : CheckerboardMode
deriving DecidableEq

/-- Arguments of the call to LightingPasses::Render at main.cpp
lines 914-919 that depend on the rendering mode. -/
structure ResamplingPassArgs where
  enableDenoiserInputPacking : Bool
  enableSpecularMis : Bool
deriving DecidableEq

/-- Arguments of the call to LightingPasses::RenderBrdfRays at main.cpp
lines 926-935 that depend on the rendering mode. -/
structure BrdfRayPassArgs where
  enableDenoiserInputPacking : Bool
  enableIndirect : Bool
  enableAdditiveBlend : Bool
  enableSpecularMis : Bool
deriving DecidableEq

/-- Whether and how the resampling-based direct lighting family runs,
main.cpp lines 908-920: the guard is the disjunction of the three ReStir
modes, the denoiser input packing flag is the disjunction written at
line 912, and the specular MIS flag is the disjunction at line 919. -/
def resamplingPassInvocation (mode : RenderingMode) : Option ResamplingPassArgs :=
  if mode = RenderingMode.ReStirDirectOnly ∨ mode = RenderingMode.ReStirDirectBrdfMIS ∨
      mode = RenderingMode.ReStirDirectBrdfIndirect then
    some
      { enableDenoiserInputPacking :=
          decide (mode = RenderingMode.ReStirDirectBrdfMIS) ||
            decide (mode ≠ RenderingMode.ReStirDirectBrdfIndirect)
        enableSpecularMis :=
          decide (mode = RenderingMode.ReStirDirectBrdfMIS) ||
            decide (mode = RenderingMode.ReStirDirectBrdfIndirect) }
  else none

/-- Whether and how the BRDF-ray lighting family runs, main.cpp
lines 922-936: the guard is the disjunction at line 922, packing is set to
true unconditionally at line 924, and the three flags are the expressions
at lines 933-935. -/
def brdfRayPassInvocation (mode : RenderingMode) : Option BrdfRayPassArgs :=
  if mode = RenderingMode.BrdfDirectOnly ∨ mode = RenderingMode.ReStirDirectBrdfMIS ∨
      mode = RenderingMode.ReStirDirectBrdfIndirect then
    some
      { enableDenoiserInputPacking := true
        enableIndirect := decide (mode = RenderingMode.ReStirDirectBrdfIndirect)
        enableAdditiveBlend :=
          decide (mode = RenderingMode.ReStirDirectBrdfMIS) ||
            decide (mode = RenderingMode.ReStirDirectBrdfIndirect)
        enableSpecularMis :=
          decide (mode = RenderingMode.ReStirDirectBrdfMIS) ||
            decide (mode = RenderingMode.ReStirDirectBrdfIndirect) }
  else none

/-- Camera-static detection, main.cpp line 758: a previous valid view
exists and the current view matrix equals the previous one exactly.
The view matrix type is abstract; the source compares float4x4 values
bitwise with operator ==. -/
def cameraIsStatic {M : Type} [DecidableEq M]
    (previousViewValid : Bool) (view viewPrevious : M) : Bool :=
  previousViewValid && decide (view = viewPrevious)

/-- The accumulated-frame counter update, main.cpp lines 759-772: when the
camera is static, accumulation is enabled and no reset was requested, the
counter is incremented and clamped by framesToAccumulate when that cap is
nonzero; otherwise it is set to 1. -/
def updateNumAccumulatedFrames (cameraStatic enableAccumulation resetAccumulation : Bool)
    (framesToAccumulate numAccumulatedFrames : Nat) : Nat :=
  if cameraStatic && enableAccumulation && !resetAccumulation then
    let n := numAccumulatedFrames + 1
    if 0 < framesToAccumulate then min n framesToAccumulate else n
  else 1

/-- The accumulation blend weight, main.cpp line 774, modelled in exact
rational arithmetic. -/
def accumulationWeight (numAccumulatedFrames : Nat) : ℚ :=
  1 / (numAccumulatedFrames : ℚ)

/-- The negated guard of the TAA jitter advance, main.cpp line 753.  Note
that the source tests the monotonic counter m_FrameIndex, not the effective
frame index resolved at lines 678-696. -/
def skipTaaJitterAdvance (enableAccumulation : Bool) (checkerboard : CheckerboardMode)
    (frameIndex : Nat) : Bool :=
  enableAccumulation && decide (checkerboard ≠ CheckerboardMode.Off) &&
    decide (frameIndex % 2 = 1)

/-- The dirty level installed by an environment-map reload request
(main.cpp line 287; the UI performs the same assignment on selection
change). -/
def requestEnvironmentMapReload : Nat := 2

/-- The evolution of environmentMapDirty across one rendered frame,
composed from its three code sites in order: the full texture reload at
lines 732-735 (runs when the level is 2), the lowering 2 to 1 at
lines 477-482, the forcing to 1 on a shader reload (line 493) or on
recreation of the RTXDI resources (line 562), and the resolution at
lines 830-840 where any nonzero level triggers PDF-mipmap regeneration
and the level is zeroed.  Returns the end-of-frame level, whether the full
reload ran, and whether the PDF mipmap was regenerated. -/
def environmentMapFrameStep (dirty : Nat) (reloadShaders rtxdiResourcesCreated : Bool) :
    Nat × Bool × Bool :=
  let fullReloadPerformed := decide (dirty = 2)
  let d := if dirty = 2 then 1 else dirty
  let d := if reloadShaders then 1 else d
  let d := if rtxdiResourcesCreated then 1 else d
  let pdfRegenerated := decide (d ≠ 0)
  let dEnd := if d ≠ 0 then 0 else d
  (dEnd, fullReloadPerformed, pdfRegenerated)

/-- The source blitted to the window, as selected by the toggle cascade at
main.cpp lines 656-663 (frame-step wait mode) and equally by the cascade
at lines 969-1005 for a full frame. -/
inductive BlitSource
  | LdrColor
  | AccumulatedColor
  | ResolvedColor
  | HdrColor
deriving DecidableEq

/-- The image re-blitted while frame stepping waits, main.cpp
lines 656-663. -/
def chooseFinalImage (enableToneMapping enableAccumulation enableTAA : Bool) : BlitSource :=
  if enableToneMapping then BlitSource.LdrColor
  else if enableAccumulation then BlitSource.AccumulatedColor
  else if enableTAA then BlitSource.ResolvedColor
  else BlitSource.HdrColor

/-- One observable GPU-side action of a frame, in command-stream order. -/
inductive FrameEvent
  | blit (source : BlitSource)
  | environmentMapLoad
  | taaJitterAdvance
  | tlasUpdate
  | renderEnvironmentMap
  | environmentPdfMipmap
  | gbufferFill
  | prepareLights (effectiveFrameIndex : Nat)
  | localLightPdfMipmap
  | resamplingLighting (args : ResamplingPassArgs)
  | brdfRayLighting (args : BrdfRayPassArgs)
  | compositing
  | glass
  | accumulationPass (weight : ℚ)
  | taaResolve
  | toneMapping
deriving DecidableEq

/-- The fields of the shared UIData object that the orchestrator reads or
writes (declared in UserInterface.h, outside this translation unit; the
field set and types follow their uses in main.cpp). -/
structure UIState where
  environmentMapDirty : Nat
  environmentMapIndex : Int
  environmentMaps : List Nat
  numAccumulatedFrames : Nat
  framesToAccumulate : Nat
  resetAccumulation : Bool
  enableAccumulation : Bool
  enableTAA : Bool
  enableToneMapping : Bool
  freezeRandom : Bool
  animationFrame : Option Nat
  renderingMode : RenderingMode
  reloadShaders : Bool
  resetRtxdiContext : Bool
  rtxdiContextParams : ContextParameters
  enableLocalLightImportanceSampling : Bool
  enableTransparentGeometry : Bool
  animateMeshes : Bool
deriving DecidableEq

/-- The orchestrator state: the SceneRenderer members driving resource
lifecycle and temporal policy.  Nullable GPU objects are Options; sized
resources carry the dimensions they were built for (RenderTargets its
framebuffer size, RtxdiResources its environment PDF texture size, the
context its parameters).  Pass objects whose identity does not matter are
booleans recording existence.  M is the view matrix type. -/
structure RendererState (M : Type) where
  ui : UIState
  frameIndex : Nat
  framesSinceAnimation : Nat
  previousViewValid : Bool
  view : M
  viewPrevious : M
  frameStepMode : FrameStepMode
  renderTargets : Option Size
  rtxdiContext : Option ContextParameters
  rtxdiResources : Option Size
  bindingCachePopulated : Bool
  temporalAntiAliasingPass : Bool
  toneMappingPass : Bool
  renderEnvironmentMapPass : Bool
  environmentMapPdfMipmapPass : Bool
  localLightPdfMipmapPass : Bool
  lightingPassesBindingSets : Bool
  environmentMap : Option Size
deriving DecidableEq

/-- Per-frame external inputs: the framebuffer description handed to
RenderScene, the camera world-to-view matrix, the texture-cache load
outcome per environment-map path, the procedural environment texture size
(owned by RenderEnvironmentMapPass), and whether camera-path interpolation
succeeds this frame. -/
structure FrameInputs (M : Type) where
  fbinfo : Size
  cameraMatrix : M
  loadTexture : Nat → Option Size
  proceduralEnvironmentMapSize : Size
  pathInterpolationSucceeds : Bool

/-- BackBufferResizing, main.cpp lines 398-409: release the render targets,
the resampling context, the RTXDI resource bundle, the TAA and tone-mapping
passes, and reset the common binding cache. -/
def backBufferResizing {M : Type} (s : RendererState M) : RendererState M :=
  { s with
    renderTargets := none
    rtxdiContext := none
    rtxdiResources := none
    bindingCachePopulated := false
    temporalAntiAliasingPass := false
    toneMappingPass := false }

/-- The outcome of LoadEnvironmentMap, main.cpp lines 411-449, on the
triple it mutates: the loaded texture, the selectable list and the
selection index.  The current texture is always unloaded first; when the
selection index is positive the file at that index is loaded; on failure
the texture stays absent, the entry is erased from the list and the index
reverts to 0 (the procedural sky). -/
def loadEnvironmentMapResult {M : Type} (i : FrameInputs M)
    (environmentMapIndex : Int) (environmentMaps : List Nat) :
    Option Size × List Nat × Int :=
  if 0 < environmentMapIndex then
    match i.loadTexture (environmentMaps.getD environmentMapIndex.toNat 0) with
    | some sz => (some sz, environmentMaps, environmentMapIndex)
    | none => (none, environmentMaps.eraseIdx environmentMapIndex.toNat, 0)
  else (none, environmentMaps, environmentMapIndex)

/-- LoadEnvironmentMap, main.cpp lines 411-449, as a state update. -/
def loadEnvironmentMap {M : Type} (i : FrameInputs M) (s : RendererState M) :
    RendererState M :=
  let r := loadEnvironmentMapResult i s.ui.environmentMapIndex s.ui.environmentMaps
  { s with
    environmentMap := r.1
    ui := { s.ui with environmentMaps := r.2.1, environmentMapIndex := r.2.2 } }

/-- SetupView, main.cpp lines 451-473: install the camera matrix as the
current view; on the very first frame seed the previous view from the
current one (line 471-472).  Viewport and jitter bookkeeping touch no state
the claims depend on and are elided. -/
def setupView {M : Type} (i : FrameInputs M) (s : RendererState M) : RendererState M :=
  let s1 := { s with view := i.cameraMatrix }
  if s1.frameIndex = 0 then { s1 with viewPrevious := s1.view } else s1

/-- main.cpp lines 477-482: on dirty level 2, drop the environment PDF
mipmap pass and lower the level to 1. -/
def setupEnvMapDirtyStep {M : Type} (s : RendererState M) : RendererState M :=
  if s.ui.environmentMapDirty = 2 then
    { s with
      environmentMapPdfMipmapPass := false
      ui := { s.ui with environmentMapDirty := 1 } }
  else s

/-- main.cpp lines 484-496: on a shader reload request, drop every object
built from shader code and force the dirty level to 1. -/
def setupShaderReloadStep {M : Type} (s : RendererState M) : RendererState M :=
  if s.ui.reloadShaders then
    { s with
      temporalAntiAliasingPass := false
      renderEnvironmentMapPass := false
      environmentMapPdfMipmapPass := false
      localLightPdfMipmapPass := false
      ui := { s.ui with environmentMapDirty := 1 } }
  else s

/-- main.cpp lines 501-504: lazily create the procedural environment-map
render pass. -/
def setupRenderEnvMapPassStep {M : Type} (s : RendererState M) : RendererState M :=
  if !s.renderEnvironmentMapPass then { s with renderEnvironmentMapPass := true } else s

/-- main.cpp lines 506-510: the resolution of the active environment map;
the file-backed texture when the selection index is positive, otherwise the
procedural texture.  The source dereferences m_EnvironmentMap here, which
is non-null whenever the index is positive; the getD default stands for
that unreachable case. -/
def environmentMapSizeOf {M : Type} (i : FrameInputs M) (s : RendererState M) : Size :=
  if 0 < s.ui.environmentMapIndex then
    s.environmentMap.getD { width := 0, height := 0 }
  else i.proceduralEnvironmentMapSize

/-- The condition at main.cpp lines 512-514: the bundle exists AND its
environment PDF texture width differs AND its height differs.  Note the
conjunction: a change in only one dimension does not trigger it. -/
def envPdfSizeMismatch (envSize : Size) : Option Size → Bool
  | some pdfSize =>
      decide (envSize.width ≠ pdfSize.width) && decide (envSize.height ≠ pdfSize.height)
  | none => false

/-- main.cpp lines 512-517: drop the RTXDI resource bundle when the
mismatch condition holds. -/
def setupInvalidateRtxdiResourcesStep {M : Type} (envSize : Size)
    (s : RendererState M) : RendererState M :=
  if envPdfSizeMismatch envSize s.rtxdiResources then { s with rtxdiResources := none }
  else s

/-- main.cpp lines 519-534: lazily create the render targets at the
framebuffer size (and the binding sets of the passes that reference them).
Returns the state and whether creation happened. -/
def setupRenderTargetsStep {M : Type} (fb : Size) (s : RendererState M) :
    RendererState M × Bool :=
  if s.renderTargets.isNone then ({ s with renderTargets := some fb }, true)
  else (s, false)

/-- main.cpp lines 536-544: lazily create the resampling context after
writing the framebuffer extent into the shared context parameters. -/
def setupRtxdiContextStep {M : Type} (fb : Size) (s : RendererState M) : RendererState M :=
  if s.rtxdiContext.isNone then
    let params :=
      { s.ui.rtxdiContextParams with renderWidth := fb.width, renderHeight := fb.height }
    { s with
      rtxdiContext := some params
      ui := { s.ui with rtxdiContextParams := params } }
  else s

/-- main.cpp lines 546-563: lazily create the RTXDI resource bundle sized
by the active environment map, and force PDF regeneration (line 562).
Returns the state and whether creation happened. -/
def setupRtxdiResourcesStep {M : Type} (envSize : Size) (s : RendererState M) :
    RendererState M × Bool :=
  if s.rtxdiResources.isNone then
    ({ s with
        rtxdiResources := some envSize
        ui := { s.ui with environmentMapDirty := 1 } }, true)
  else (s, false)

/-- main.cpp lines 565-581: recreate the PDF mipmap generator passes when
absent or when the resource bundle was just recreated. -/
def setupMipmapPassesStep {M : Type} (rtxdiResourcesCreated : Bool)
    (s : RendererState M) : RendererState M :=
  let s1 :=
    if !s.environmentMapPdfMipmapPass || rtxdiResourcesCreated then
      { s with environmentMapPdfMipmapPass := true }
    else s
  if !s1.localLightPdfMipmapPass || rtxdiResourcesCreated then
    { s1 with localLightPdfMipmapPass := true }
  else s1

/-- main.cpp lines 583-590: recreate the lighting-pass binding sets when
either bundle was recreated. -/
def setupBindingSetsStep {M : Type} (renderTargetsCreated rtxdiResourcesCreated : Bool)
    (s : RendererState M) : RendererState M :=
  if renderTargetsCreated || rtxdiResourcesCreated then
    { s with lightingPassesBindingSets := true }
  else s

/-- main.cpp lines 598-628: clear the shader-reload flag, lazily recreate
the TAA pass and the tone-mapping pass; exposure reset is required exactly
when the tone-mapping pass is recreated. -/
def setupFinalizeStep {M : Type} (s : RendererState M) : RendererState M × Bool :=
  let s1 := { s with ui := { s.ui with reloadShaders := false } }
  let s2 :=
    if !s1.temporalAntiAliasingPass then { s1 with temporalAntiAliasingPass := true } else s1
  let exposureResetRequired := !s2.toneMappingPass
  let s3 := if !s2.toneMappingPass then { s2 with toneMappingPass := true } else s2
  (s3, exposureResetRequired)

/-- SetupRenderPasses, main.cpp lines 475-629, composed from its steps in
source order.  Returns the state and the exposureResetRequired flag. -/
def setupRenderPasses {M : Type} (i : FrameInputs M) (s : RendererState M) :
    RendererState M × Bool :=
  let s1 := setupEnvMapDirtyStep s
  let s2 := setupShaderReloadStep s1
  let s3 := setupRenderEnvMapPassStep s2
  let envSize := environmentMapSizeOf i s3
  let s4 := setupInvalidateRtxdiResourcesStep envSize s3
  let p1 := setupRenderTargetsStep i.fbinfo s4
  let s5 := setupRtxdiContextStep i.fbinfo p1.1
  let p2 := setupRtxdiResourcesStep envSize s5
  let s6 := setupMipmapPassesStep p2.2 p2.1
  let s7 := setupBindingSetsStep p1.2 p2.2 s6
  setupFinalizeStep s7

/-- main.cpp lines 675-676: in step mode, allow this frame and revert to
wait. -/
def stepFrameStepMode {M : Type} (s : RendererState M) : RendererState M :=
  if s.frameStepMode = FrameStepMode.Step then { s with frameStepMode := FrameStepMode.Wait }
  else s

/-- main.cpp lines 678-696: resolve the effective frame index.  Normally
the monotonic counter, 0 under freeze-random; during camera-path playback
the animation frame, which then advances, or playback ends when the path is
exhausted. -/
def resolveEffectiveFrameIndex {M : Type} (i : FrameInputs M) (s : RendererState M) :
    Nat × RendererState M :=
  let e := if s.ui.freezeRandom then 0 else s.frameIndex
  match s.ui.animationFrame with
  | some animationFrame =>
      if i.pathInterpolationSucceeds then
        (animationFrame,
          { s with ui := { s.ui with animationFrame := some (animationFrame + 1) } })
      else (e, { s with ui := { s.ui with animationFrame := none } })
  | none => (e, s)

/-- main.cpp lines 725-730: an explicit context reset drops the context and
the resource bundle and clears the request flag. -/
def stepResetRtxdiContext {M : Type} (s : RendererState M) : RendererState M :=
  if s.ui.resetRtxdiContext then
    { s with
      rtxdiContext := none
      rtxdiResources := none
      ui := { s.ui with resetRtxdiContext := false } }
  else s

/-- main.cpp lines 732-735: the full environment texture reload, performed
when the dirty level is 2. -/
def stepEnvironmentMapReload {M : Type} (i : FrameInputs M) (s : RendererState M) :
    RendererState M × List FrameEvent :=
  if s.ui.environmentMapDirty = 2 then
    (loadEnvironmentMap i s, [FrameEvent.environmentMapLoad])
  else (s, [])

/-- main.cpp lines 823-828: rebuild the top-level acceleration structure
within two frames of the last animation. -/
def tlasEvents (framesSinceAnimation : Nat) : List FrameEvent :=
  if framesSinceAnimation < 2 then [FrameEvent.tlasUpdate] else []

/-- main.cpp lines 830-840: when dirty, re-render the procedural sky (only
for the procedural selection) and regenerate the environment PDF mipmap. -/
def environmentResolveEvents (dirty : Nat) (environmentMapIndex : Int) : List FrameEvent :=
  if dirty ≠ 0 then
    (if environmentMapIndex = 0 then [FrameEvent.renderEnvironmentMap] else []) ++
      [FrameEvent.environmentPdfMipmap]
  else []

/-- main.cpp lines 908-936: the lighting passes selected by the rendering
mode, resampling family first. -/
def lightingEvents (mode : RenderingMode) : List FrameEvent :=
  (match resamplingPassInvocation mode with
   | some args => [FrameEvent.resamplingLighting args]
   | none => []) ++
    (match brdfRayPassInvocation mode with
     | some args => [FrameEvent.brdfRayLighting args]
     | none => [])

/-- main.cpp lines 969-985: accumulation, or else TAA resolve, or
neither. -/
def postLightingEvents (enableAccumulation enableTAA : Bool) (weight : ℚ) :
    List FrameEvent :=
  if enableAccumulation then [FrameEvent.accumulationPass weight]
  else if enableTAA then [FrameEvent.taaResolve] else []

/-- main.cpp lines 987-1005: tone mapping blits the LDR color, otherwise
the final HDR image chosen by the same cascade is blitted directly. -/
def finalBlitEvents (enableToneMapping enableAccumulation enableTAA : Bool) :
    List FrameEvent :=
  if enableToneMapping then
    [FrameEvent.toneMapping, FrameEvent.blit BlitSource.LdrColor]
  else
    [FrameEvent.blit
      (if enableAccumulation then BlitSource.AccumulatedColor
       else if enableTAA then BlitSource.ResolvedColor
       else BlitSource.HdrColor)]

/-- main.cpp lines 750-1025 after resource setup: the TAA jitter advance
guard (line 753), the accumulation counter update (lines 758-775), the
recorded pass sequence, and the end-of-frame bookkeeping (lines 1018-1025:
frame counter increment, previous view commit). -/
def framePasses {M : Type} [DecidableEq M] (s : RendererState M)
    (effectiveIdx : Nat) : RendererState M × List FrameEvent :=
  let checkerboard := (s.rtxdiContext.getD s.ui.rtxdiContextParams).checkerboardSamplingMode
  let jitterEvents :=
    if skipTaaJitterAdvance s.ui.enableAccumulation checkerboard s.frameIndex then []
    else [FrameEvent.taaJitterAdvance]
  let static := cameraIsStatic s.previousViewValid s.view s.viewPrevious
  let n := updateNumAccumulatedFrames static s.ui.enableAccumulation s.ui.resetAccumulation
      s.ui.framesToAccumulate s.ui.numAccumulatedFrames
  let weight := accumulationWeight n
  let events :=
    jitterEvents ++ tlasEvents s.framesSinceAnimation ++
      environmentResolveEvents s.ui.environmentMapDirty s.ui.environmentMapIndex ++
      [FrameEvent.gbufferFill, FrameEvent.prepareLights effectiveIdx] ++
      (if s.ui.enableLocalLightImportanceSampling then [FrameEvent.localLightPdfMipmap]
       else []) ++
      lightingEvents s.ui.renderingMode ++ [FrameEvent.compositing] ++
      (if s.ui.enableTransparentGeometry then [FrameEvent.glass] else []) ++
      postLightingEvents s.ui.enableAccumulation s.ui.enableTAA weight ++
      finalBlitEvents s.ui.enableToneMapping s.ui.enableAccumulation s.ui.enableTAA
  let s1 :=
    { s with
      ui :=
        { s.ui with
          numAccumulatedFrames := n
          resetAccumulation := false
          environmentMapDirty := 0 } }
  let s2 :=
    { s1 with
      framesSinceAnimation := if s1.ui.animateMeshes then 0 else s1.framesSinceAnimation + 1
      frameIndex := s1.frameIndex + 1
      viewPrevious := s1.view
      previousViewValid := true }
  (s2, events)

/-- The events of the frame-step wait branch, main.cpp lines 652-673: one
blit of the image chosen by the toggle cascade, nothing else. -/
def waitModeEvents {M : Type} (s : RendererState M) : List FrameEvent :=
  [FrameEvent.blit
    (chooseFinalImage s.ui.enableToneMapping s.ui.enableAccumulation s.ui.enableTAA)]

/-- The resource-setup prefix of a full frame, main.cpp lines 675-739:
step-mode bookkeeping, effective frame index resolution, explicit context
reset, environment reload, view setup and SetupRenderPasses.  RenderScene
executes every pass on the state this function produces. -/
def frameResourceSetup {M : Type} [DecidableEq M] (i : FrameInputs M)
    (s : RendererState M) : RendererState M :=
  let s1 := stepFrameStepMode s
  let s2 := (resolveEffectiveFrameIndex i s1).2
  let s3 := stepResetRtxdiContext s2
  let s4 := (stepEnvironmentMapReload i s3).1
  let s5 := setupView i s4
  (setupRenderPasses i s5).1

/-- RenderScene, main.cpp lines 650-1026.  In frame-step wait mode the
frame only re-blits the chosen image of the last completed frame and the
state is untouched (lines 652-673); otherwise the resource-setup prefix
runs and then the passes execute. -/
def renderScene {M : Type} [DecidableEq M] (i : FrameInputs M) (s : RendererState M) :
    RendererState M × List FrameEvent :=
  if s.frameStepMode = FrameStepMode.Wait then (s, waitModeEvents s)
  else
    let s1 := stepFrameStepMode s
    let r := resolveEffectiveFrameIndex i s1
    let s3 := stepResetRtxdiContext r.2
    let p := stepEnvironmentMapReload i s3
    let s5 := setupView i p.1
    let q := setupRenderPasses i s5
    let f := framePasses q.1 r.1
    (f.1, p.2 ++ f.2)

/-- Iterated frames under constant per-frame inputs. -/
def iterateRenderScene {M : Type} [DecidableEq M] (i : FrameInputs M) :
    Nat → RendererState M → RendererState M
  | 0, s => s
  | n + 1, s => iterateRenderScene i n (renderScene i s).1

/-- The accumulated-frame counter along a run in which the camera never
moves: frame 1 finds no valid previous view, every later frame finds an
identical view matrix.  Mirrors the per-frame update at main.cpp
lines 758-772. -/
def staticCameraCounterSeq (cap : Nat) : Nat → Nat
  | 0 => 1
  | 1 => updateNumAccumulatedFrames false true false cap 1
  | n + 2 => updateNumAccumulatedFrames true true false cap (staticCameraCounterSeq cap (n + 1))

/-- Baseline context parameters used by the concrete scenarios. -/
def baseContextParams : ContextParameters :=
  { renderWidth := 1920, renderHeight := 1080, checkerboardSamplingMode := CheckerboardMode.Off }

/-- Baseline UI snapshot used by the concrete scenarios: every toggle off,
no pending request, procedural sky selected. -/
def baseUI : UIState :=
  { environmentMapDirty := 0
    environmentMapIndex := 0
    environmentMaps := [0]
    numAccumulatedFrames := 1
    framesToAccumulate := 0
    resetAccumulation := false
    enableAccumulation := false
    enableTAA := false
    enableToneMapping := false
    freezeRandom := false
    animationFrame := none
    renderingMode := RenderingMode.ReStirDirectOnly
    reloadShaders := false
    resetRtxdiContext := false
    rtxdiContextParams := baseContextParams
    enableLocalLightImportanceSampling := false
    enableTransparentGeometry := false
    animateMeshes := false }

/-- Baseline warm renderer state used by the concrete scenarios: every
resource exists at the baseline sizes, several frames have completed. -/
def baseState : RendererState Int :=
  { ui := baseUI
    frameIndex := 10
    framesSinceAnimation := 5
    previousViewValid := true
    view := 0
    viewPrevious := 0
    frameStepMode := FrameStepMode.Disabled
    renderTargets := some { width := 1920, height := 1080 }
    rtxdiContext := some baseContextParams
    rtxdiResources := some { width := 2048, height := 1024 }
    bindingCachePopulated := true
    temporalAntiAliasingPass := true
    toneMappingPass := true
    renderEnvironmentMapPass := true
    environmentMapPdfMipmapPass := true
    localLightPdfMipmapPass := true
    lightingPassesBindingSets := true
    environmentMap := none }

/-- Baseline frame inputs for the concrete scenarios. -/
def baseInputs : FrameInputs Int :=
  { fbinfo := { width := 1920, height := 1080 }
    cameraMatrix := 0
    loadTexture := fun _ => none
    proceduralEnvironmentMapSize := { width := 2048, height := 1024 }
    pathInterpolationSucceeds := false }

/-- A fresh start-of-session state with nothing created yet, used by the
accumulation scenario: the camera never moves, accumulation is enabled with
the given cap. -/
def accumulationScenarioState (cap : Nat) : RendererState Int :=
  { baseState with
    ui := { baseUI with enableAccumulation := true, framesToAccumulate := cap }
    frameIndex := 0
    framesSinceAnimation := 0
    previousViewValid := false
    renderTargets := none
    rtxdiContext := none
    rtxdiResources := none
    bindingCachePopulated := false
    temporalAntiAliasingPass := false
    toneMappingPass := false
    renderEnvironmentMapPass := false
    environmentMapPdfMipmapPass := false
    localLightPdfMipmapPass := false
    lightingPassesBindingSets := false }

/-- The accumulated-frame counter after n frames of the accumulation
scenario. -/
def accumulationCounterAfter (cap n : Nat) : Nat :=
  (iterateRenderScene baseInputs n (accumulationScenarioState cap)).ui.numAccumulatedFrames

/-- The failing input of the environment-resolution invalidation check: the
resource bundle holds a 2048 x 1024 environment PDF texture while the
newly selected file-backed environment map is 1024 x 1024 — the width
differs, the height does not. -/
def widthChangeState : RendererState Int :=
  { baseState with
    ui := { baseUI with environmentMapIndex := 1, environmentMaps := [0, 7] }
    environmentMap := some { width := 1024, height := 1024 } }

/-- State for the jitter counterexample: freeze-random is on, the monotonic
frame counter is odd, accumulation is on and the context uses checkerboard
sampling. -/
def jitterCounterexampleState : RendererState Int :=
  { baseState with
    ui :=
      { baseUI with
        freezeRandom := true
        enableAccumulation := true
        rtxdiContextParams :=
          { baseContextParams with checkerboardSamplingMode := CheckerboardMode.Black } }
    frameIndex := 1
    rtxdiContext :=
      some { baseContextParams with checkerboardSamplingMode := CheckerboardMode.Black } }

/-- State for the dirty-level counterexample: a reload request is pending
(level 2) on the procedural sky selection. -/
def dirtyLevelTwoState : RendererState Int :=
  { baseState with ui := { baseUI with environmentMapDirty := 2 } }

/-- Baseline state frozen in frame-step wait mode. -/
def waitModeState : RendererState Int :=
  { baseState with frameStepMode := FrameStepMode.Wait }

/-- Baseline state whose previous view differs from the incoming camera
matrix by the smallest representable amount. -/
def movedCameraState : RendererState Int :=
  { baseState with viewPrevious := 1 }

/-! ### Normal forms of the per-frame steps

Each step function is rewritten as a single record update whose field
values carry the branch conditions, so that projections of composed steps
compute by simp. -/

theorem stepFrameStepMode_eq {M : Type} (s : RendererState M) :
    stepFrameStepMode s =
      { s with
        frameStepMode :=
          if s.frameStepMode = FrameStepMode.Step then FrameStepMode.Wait
          else s.frameStepMode } := by
  obtain ⟨ui, fi, fsa, pv, vw, vp, fsm, rt, cx, rs, bc, taa, tm, re, pdf, llp, lbs, em⟩ := s
  by_cases h : fsm = FrameStepMode.Step <;> simp [stepFrameStepMode, h]

theorem resolveEffectiveFrameIndex_snd_eq {M : Type} (i : FrameInputs M)
    (s : RendererState M) :
    (resolveEffectiveFrameIndex i s).2 =
      { s with
        ui :=
          { s.ui with
            animationFrame :=
              match s.ui.animationFrame with
              | some af => if i.pathInterpolationSucceeds then some (af + 1) else none
              | none => none } } := by
  obtain ⟨ui, fi, fsa, pv, vw, vp, fsm, rt, cx, rs, bc, taa, tm, re, pdf, llp, lbs, em⟩ := s
  obtain ⟨d, idx, maps, na, fa, ra, ea, etaa, etm, fr, anim, rm, rl, rc, pp, el, etg, am⟩ := ui
  cases anim <;> by_cases h : i.pathInterpolationSucceeds <;>
    simp [resolveEffectiveFrameIndex, h]

theorem stepResetRtxdiContext_eq {M : Type} (s : RendererState M) :
    stepResetRtxdiContext s =
      { s with
        rtxdiContext := if s.ui.resetRtxdiContext then none else s.rtxdiContext
        rtxdiResources := if s.ui.resetRtxdiContext then none else s.rtxdiResources
        ui := { s.ui with resetRtxdiContext := false } } := by
  obtain ⟨ui, fi, fsa, pv, vw, vp, fsm, rt, cx, rs, bc, taa, tm, re, pdf, llp, lbs, em⟩ := s
  obtain ⟨d, idx, maps, na, fa, ra, ea, etaa, etm, fr, anim, rm, rl, rc, pp, el, etg, am⟩ := ui
  cases rc <;> simp [stepResetRtxdiContext]

theorem stepEnvironmentMapReload_fst_eq {M : Type} (i : FrameInputs M)
    (s : RendererState M) :
    (stepEnvironmentMapReload i s).1 =
      { s with
        environmentMap :=
          if s.ui.environmentMapDirty = 2 then
            (loadEnvironmentMapResult i s.ui.environmentMapIndex s.ui.environmentMaps).1
          else s.environmentMap
        ui :=
          { s.ui with
            environmentMaps :=
              if s.ui.environmentMapDirty = 2 then
                (loadEnvironmentMapResult i s.ui.environmentMapIndex
                  s.ui.environmentMaps).2.1
              else s.ui.environmentMaps
            environmentMapIndex :=
              if s.ui.environmentMapDirty = 2 then
                (loadEnvironmentMapResult i s.ui.environmentMapIndex
                  s.ui.environmentMaps).2.2
              else s.ui.environmentMapIndex } } := by
  obtain ⟨ui, fi, fsa, pv, vw, vp, fsm, rt, cx, rs, bc, taa, tm, re, pdf, llp, lbs, em⟩ := s
  obtain ⟨d, idx, maps, na, fa, ra, ea, etaa, etm, fr, anim, rm, rl, rc, pp, el, etg, am⟩ := ui
  by_cases h : d = 2 <;> simp [stepEnvironmentMapReload, loadEnvironmentMap, h]

theorem stepEnvironmentMapReload_snd_eq {M : Type} (i : FrameInputs M)
    (s : RendererState M) :
    (stepEnvironmentMapReload i s).2 =
      if s.ui.environmentMapDirty = 2 then [FrameEvent.environmentMapLoad] else [] := by
  by_cases h : s.ui.environmentMapDirty = 2 <;> simp [stepEnvironmentMapReload, h]

theorem setupView_eq {M : Type} (i : FrameInputs M) (s : RendererState M) :
    setupView i s =
      { s with
        view := i.cameraMatrix
        viewPrevious := if s.frameIndex = 0 then i.cameraMatrix else s.viewPrevious } := by
  obtain ⟨ui, fi, fsa, pv, vw, vp, fsm, rt, cx, rs, bc, taa, tm, re, pdf, llp, lbs, em⟩ := s
  by_cases h : fi = 0 <;> simp [setupView, h]

theorem setupEnvMapDirtyStep_eq {M : Type} (s : RendererState M) :
    setupEnvMapDirtyStep s =
      { s with
        environmentMapPdfMipmapPass :=
          if s.ui.environmentMapDirty = 2 then false else s.environmentMapPdfMipmapPass
        ui :=
          { s.ui with
            environmentMapDirty :=
              if s.ui.environmentMapDirty = 2 then 1 else s.ui.environmentMapDirty } } := by
  obtain ⟨ui, fi, fsa, pv, vw, vp, fsm, rt, cx, rs, bc, taa, tm, re, pdf, llp, lbs, em⟩ := s
  obtain ⟨d, idx, maps, na, fa, ra, ea, etaa, etm, fr, anim, rm, rl, rc, pp, el, etg, am⟩ := ui
  by_cases h : d = 2 <;> simp [setupEnvMapDirtyStep, h]

theorem setupShaderReloadStep_eq {M : Type} (s : RendererState M) :
    setupShaderReloadStep s =
      { s with
        temporalAntiAliasingPass :=
          if s.ui.reloadShaders then false else s.temporalAntiAliasingPass
        renderEnvironmentMapPass :=
          if s.ui.reloadShaders then false else s.renderEnvironmentMapPass
        environmentMapPdfMipmapPass :=
          if s.ui.reloadShaders then false else s.environmentMapPdfMipmapPass
        localLightPdfMipmapPass :=
          if s.ui.reloadShaders then false else s.localLightPdfMipmapPass
        ui :=
          { s.ui with
            environmentMapDirty :=
              if s.ui.reloadShaders then 1 else s.ui.environmentMapDirty } } := by
  obtain ⟨ui, fi, fsa, pv, vw, vp, fsm, rt, cx, rs, bc, taa, tm, re, pdf, llp, lbs, em⟩ := s
  obtain ⟨d, idx, maps, na, fa, ra, ea, etaa, etm, fr, anim, rm, rl, rc, pp, el, etg, am⟩ := ui
  cases rl <;> simp [setupShaderReloadStep]

theorem setupRenderEnvMapPassStep_eq {M : Type} (s : RendererState M) :
    setupRenderEnvMapPassStep s = { s with renderEnvironmentMapPass := true } := by
  obtain ⟨ui, fi, fsa, pv, vw, vp, fsm, rt, cx, rs, bc, taa, tm, re, pdf, llp, lbs, em⟩ := s
  cases re <;> simp [setupRenderEnvMapPassStep]

theorem setupInvalidateRtxdiResourcesStep_eq {M : Type} (envSize : Size)
    (s : RendererState M) :
    setupInvalidateRtxdiResourcesStep envSize s =
      { s with
        rtxdiResources :=
          if envPdfSizeMismatch envSize s.rtxdiResources then none
          else s.rtxdiResources } := by
  obtain ⟨ui, fi, fsa, pv, vw, vp, fsm, rt, cx, rs, bc, taa, tm, re, pdf, llp, lbs, em⟩ := s
  by_cases h : envPdfSizeMismatch envSize rs <;> simp [setupInvalidateRtxdiResourcesStep, h]

theorem setupRenderTargetsStep_fst_eq {M : Type} (fb : Size) (s : RendererState M) :
    (setupRenderTargetsStep fb s).1 =
      { s with renderTargets := some (s.renderTargets.getD fb) } := by
  obtain ⟨ui, fi, fsa, pv, vw, vp, fsm, rt, cx, rs, bc, taa, tm, re, pdf, llp, lbs, em⟩ := s
  cases rt <;> simp [setupRenderTargetsStep]

theorem setupRenderTargetsStep_snd_eq {M : Type} (fb : Size) (s : RendererState M) :
    (setupRenderTargetsStep fb s).2 = s.renderTargets.isNone := by
  cases h : s.renderTargets <;> simp [setupRenderTargetsStep, h]

theorem setupRtxdiContextStep_eq {M : Type} (fb : Size) (s : RendererState M) :
    setupRtxdiContextStep fb s =
      { s with
        rtxdiContext :=
          if s.rtxdiContext.isNone then
            some
              { s.ui.rtxdiContextParams with
                renderWidth := fb.width
                renderHeight := fb.height }
          else s.rtxdiContext
        ui :=
          { s.ui with
            rtxdiContextParams :=
              if s.rtxdiContext.isNone then
                { s.ui.rtxdiContextParams with
                  renderWidth := fb.width
                  renderHeight := fb.height }
              else s.ui.rtxdiContextParams } } := by
  obtain ⟨ui, fi, fsa, pv, vw, vp, fsm, rt, cx, rs, bc, taa, tm, re, pdf, llp, lbs, em⟩ := s
  obtain ⟨d, idx, maps, na, fa, ra, ea, etaa, etm, fr, anim, rm, rl, rc, pp, el, etg, am⟩ := ui
  cases cx <;> simp [setupRtxdiContextStep]

theorem setupRtxdiResourcesStep_fst_eq {M : Type} (envSize : Size) (s : RendererState M) :
    (setupRtxdiResourcesStep envSize s).1 =
      { s with
        rtxdiResources := some (s.rtxdiResources.getD envSize)
        ui :=
          { s.ui with
            environmentMapDirty :=
              if s.rtxdiResources.isNone then 1 else s.ui.environmentMapDirty } } := by
  obtain ⟨ui, fi, fsa, pv, vw, vp, fsm, rt, cx, rs, bc, taa, tm, re, pdf, llp, lbs, em⟩ := s
  obtain ⟨d, idx, maps, na, fa, ra, ea, etaa, etm, fr, anim, rm, rl, rc, pp, el, etg, am⟩ := ui
  cases rs <;> simp [setupRtxdiResourcesStep]

theorem setupRtxdiResourcesStep_snd_eq {M : Type} (envSize : Size) (s : RendererState M) :
    (setupRtxdiResourcesStep envSize s).2 = s.rtxdiResources.isNone := by
  cases h : s.rtxdiResources <;> simp [setupRtxdiResourcesStep, h]

theorem setupMipmapPassesStep_eq {M : Type} (rc : Bool) (s : RendererState M) :
    setupMipmapPassesStep rc s =
      { s with environmentMapPdfMipmapPass := true, localLightPdfMipmapPass := true } := by
  obtain ⟨ui, fi, fsa, pv, vw, vp, fsm, rt, cx, rs, bc, taa, tm, re, pdf, llp, lbs, em⟩ := s
  cases pdf <;> cases llp <;> cases rc <;> simp [setupMipmapPassesStep]

theorem setupBindingSetsStep_eq {M : Type} (rtC rsC : Bool) (s : RendererState M) :
    setupBindingSetsStep rtC rsC s =
      { s with
        lightingPassesBindingSets :=
          if rtC || rsC then true else s.lightingPassesBindingSets } := by
  obtain ⟨ui, fi, fsa, pv, vw, vp, fsm, rt, cx, rs, bc, taa, tm, re, pdf, llp, lbs, em⟩ := s
  cases rtC <;> cases rsC <;> simp [setupBindingSetsStep]

theorem setupFinalizeStep_fst_eq {M : Type} (s : RendererState M) :
    (setupFinalizeStep s).1 =
      { s with
        temporalAntiAliasingPass := true
        toneMappingPass := true
        ui := { s.ui with reloadShaders := false } } := by
  obtain ⟨ui, fi, fsa, pv, vw, vp, fsm, rt, cx, rs, bc, taa, tm, re, pdf, llp, lbs, em⟩ := s
  obtain ⟨d, idx, maps, na, fa, ra, ea, etaa, etm, fr, anim, rm, rl, rc, pp, el, etg, am⟩ := ui
  cases taa <;> cases tm <;> simp [setupFinalizeStep]

theorem setupFinalizeStep_snd_eq {M : Type} (s : RendererState M) :
    (setupFinalizeStep s).2 = !s.toneMappingPass := by
  cases h : s.toneMappingPass <;> cases h2 : s.temporalAntiAliasingPass <;>
    simp [setupFinalizeStep, h, h2]

/-! ### Event chunk membership facts -/

theorem taaJitterAdvance_not_mem_tlasEvents (f : Nat) :
    FrameEvent.taaJitterAdvance ∉ tlasEvents f := by
  unfold tlasEvents; split <;> simp

theorem taaJitterAdvance_not_mem_environmentResolveEvents (d : Nat) (idx : Int) :
    FrameEvent.taaJitterAdvance ∉ environmentResolveEvents d idx := by
  unfold environmentResolveEvents
  split
  · split <;> simp
  · simp

theorem taaJitterAdvance_not_mem_lightingEvents (m : RenderingMode) :
    FrameEvent.taaJitterAdvance ∉ lightingEvents m := by
  cases m <;> decide

theorem taaJitterAdvance_not_mem_postLightingEvents (a t : Bool) (w : ℚ) :
    FrameEvent.taaJitterAdvance ∉ postLightingEvents a t w := by
  cases a <;> cases t <;> simp [postLightingEvents]

theorem taaJitterAdvance_not_mem_finalBlitEvents (tm a t : Bool) :
    FrameEvent.taaJitterAdvance ∉ finalBlitEvents tm a t := by
  cases tm <;> simp [finalBlitEvents]

theorem taaJitterAdvance_not_mem_loadChunk (c : Prop) [Decidable c] :
    FrameEvent.taaJitterAdvance ∉
      (if c then [FrameEvent.environmentMapLoad] else ([] : List FrameEvent)) := by
  split <;> simp

theorem environmentMapLoad_not_mem_tlasEvents (f : Nat) :
    FrameEvent.environmentMapLoad ∉ tlasEvents f := by
  unfold tlasEvents; split <;> simp

theorem environmentMapLoad_not_mem_environmentResolveEvents (d : Nat) (idx : Int) :
    FrameEvent.environmentMapLoad ∉ environmentResolveEvents d idx := by
  unfold environmentResolveEvents
  split
  · split <;> simp
  · simp

theorem environmentMapLoad_not_mem_lightingEvents (m : RenderingMode) :
    FrameEvent.environmentMapLoad ∉ lightingEvents m := by
  cases m <;> decide

theorem environmentMapLoad_not_mem_postLightingEvents (a t : Bool) (w : ℚ) :
    FrameEvent.environmentMapLoad ∉ postLightingEvents a t w := by
  cases a <;> cases t <;> simp [postLightingEvents]

theorem environmentMapLoad_not_mem_finalBlitEvents (tm a t : Bool) :
    FrameEvent.environmentMapLoad ∉ finalBlitEvents tm a t := by
  cases tm <;> simp [finalBlitEvents]

theorem environmentMapLoad_not_mem_jitterChunk (c : Prop) [Decidable c] :
    FrameEvent.environmentMapLoad ∉
      (if c then ([] : List FrameEvent) else [FrameEvent.taaJitterAdvance]) := by
  split <;> simp

/-- Bridging the boolean jitter-skip guard to its propositional reading. -/
theorem skipTaaJitterAdvance_true_iff (a : Bool) (cb : CheckerboardMode) (fi : Nat) :
    skipTaaJitterAdvance a cb fi = true ↔
      (a = true ∧ cb ≠ CheckerboardMode.Off ∧ fi % 2 = 1) := by
  cases a <;> simp [skipTaaJitterAdvance]

/-! ### Field formulas for a full frame -/

theorem renderScene_counter {M : Type} [DecidableEq M] (i : FrameInputs M)
    (s : RendererState M) (h : s.frameStepMode = FrameStepMode.Disabled) :
    (renderScene i s).1.ui.numAccumulatedFrames =
      updateNumAccumulatedFrames
        (cameraIsStatic s.previousViewValid i.cameraMatrix
          (if s.frameIndex = 0 then i.cameraMatrix else s.viewPrevious))
        s.ui.enableAccumulation s.ui.resetAccumulation s.ui.framesToAccumulate
        s.ui.numAccumulatedFrames := by
  simp [renderScene, h, framePasses, setupRenderPasses,
    stepFrameStepMode_eq, resolveEffectiveFrameIndex_snd_eq, stepResetRtxdiContext_eq,
    stepEnvironmentMapReload_fst_eq, setupView_eq, setupEnvMapDirtyStep_eq,
    setupShaderReloadStep_eq, setupRenderEnvMapPassStep_eq,
    setupInvalidateRtxdiResourcesStep_eq, setupRenderTargetsStep_fst_eq,
    setupRtxdiContextStep_eq, setupRtxdiResourcesStep_fst_eq,
    setupMipmapPassesStep_eq, setupBindingSetsStep_eq, setupFinalizeStep_fst_eq]

theorem renderScene_previousViewValid {M : Type} [DecidableEq M] (i : FrameInputs M)
    (s : RendererState M) (h : s.frameStepMode = FrameStepMode.Disabled) :
    (renderScene i s).1.previousViewValid = true := by
  simp [renderScene, h, framePasses, setupRenderPasses,
    stepFrameStepMode_eq, resolveEffectiveFrameIndex_snd_eq, stepResetRtxdiContext_eq,
    stepEnvironmentMapReload_fst_eq, setupView_eq, setupEnvMapDirtyStep_eq,
    setupShaderReloadStep_eq, setupRenderEnvMapPassStep_eq,
    setupInvalidateRtxdiResourcesStep_eq, setupRenderTargetsStep_fst_eq,
    setupRtxdiContextStep_eq, setupRtxdiResourcesStep_fst_eq,
    setupMipmapPassesStep_eq, setupBindingSetsStep_eq, setupFinalizeStep_fst_eq]

theorem renderScene_viewPrevious {M : Type} [DecidableEq M] (i : FrameInputs M)
    (s : RendererState M) (h : s.frameStepMode = FrameStepMode.Disabled) :
    (renderScene i s).1.viewPrevious = i.cameraMatrix := by
  simp [renderScene, h, framePasses, setupRenderPasses,
    stepFrameStepMode_eq, resolveEffectiveFrameIndex_snd_eq, stepResetRtxdiContext_eq,
    stepEnvironmentMapReload_fst_eq, setupView_eq, setupEnvMapDirtyStep_eq,
    setupShaderReloadStep_eq, setupRenderEnvMapPassStep_eq,
    setupInvalidateRtxdiResourcesStep_eq, setupRenderTargetsStep_fst_eq,
    setupRtxdiContextStep_eq, setupRtxdiResourcesStep_fst_eq,
    setupMipmapPassesStep_eq, setupBindingSetsStep_eq, setupFinalizeStep_fst_eq]

theorem renderScene_frameStepMode {M : Type} [DecidableEq M] (i : FrameInputs M)
    (s : RendererState M) (h : s.frameStepMode = FrameStepMode.Disabled) :
    (renderScene i s).1.frameStepMode = FrameStepMode.Disabled := by
  simp [renderScene, h, framePasses, setupRenderPasses,
    stepFrameStepMode_eq, resolveEffectiveFrameIndex_snd_eq, stepResetRtxdiContext_eq,
    stepEnvironmentMapReload_fst_eq, setupView_eq, setupEnvMapDirtyStep_eq,
    setupShaderReloadStep_eq, setupRenderEnvMapPassStep_eq,
    setupInvalidateRtxdiResourcesStep_eq, setupRenderTargetsStep_fst_eq,
    setupRtxdiContextStep_eq, setupRtxdiResourcesStep_fst_eq,
    setupMipmapPassesStep_eq, setupBindingSetsStep_eq, setupFinalizeStep_fst_eq]

theorem renderScene_enableAccumulation {M : Type} [DecidableEq M] (i : FrameInputs M)
    (s : RendererState M) (h : s.frameStepMode = FrameStepMode.Disabled) :
    (renderScene i s).1.ui.enableAccumulation = s.ui.enableAccumulation := by
  simp [renderScene, h, framePasses, setupRenderPasses,
    stepFrameStepMode_eq, resolveEffectiveFrameIndex_snd_eq, stepResetRtxdiContext_eq,
    stepEnvironmentMapReload_fst_eq, setupView_eq, setupEnvMapDirtyStep_eq,
    setupShaderReloadStep_eq, setupRenderEnvMapPassStep_eq,
    setupInvalidateRtxdiResourcesStep_eq, setupRenderTargetsStep_fst_eq,
    setupRtxdiContextStep_eq, setupRtxdiResourcesStep_fst_eq,
    setupMipmapPassesStep_eq, setupBindingSetsStep_eq, setupFinalizeStep_fst_eq]

theorem renderScene_resetAccumulation {M : Type} [DecidableEq M] (i : FrameInputs M)
    (s : RendererState M) (h : s.frameStepMode = FrameStepMode.Disabled) :
    (renderScene i s).1.ui.resetAccumulation = false := by
  simp [renderScene, h, framePasses, setupRenderPasses,
    stepFrameStepMode_eq, resolveEffectiveFrameIndex_snd_eq, stepResetRtxdiContext_eq,
    stepEnvironmentMapReload_fst_eq, setupView_eq, setupEnvMapDirtyStep_eq,
    setupShaderReloadStep_eq, setupRenderEnvMapPassStep_eq,
    setupInvalidateRtxdiResourcesStep_eq, setupRenderTargetsStep_fst_eq,
    setupRtxdiContextStep_eq, setupRtxdiResourcesStep_fst_eq,
    setupMipmapPassesStep_eq, setupBindingSetsStep_eq, setupFinalizeStep_fst_eq]

theorem renderScene_framesToAccumulate {M : Type} [DecidableEq M] (i : FrameInputs M)
    (s : RendererState M) (h : s.frameStepMode = FrameStepMode.Disabled) :
    (renderScene i s).1.ui.framesToAccumulate = s.ui.framesToAccumulate := by
  simp [renderScene, h, framePasses, setupRenderPasses,
    stepFrameStepMode_eq, resolveEffectiveFrameIndex_snd_eq, stepResetRtxdiContext_eq,
    stepEnvironmentMapReload_fst_eq, setupView_eq, setupEnvMapDirtyStep_eq,
    setupShaderReloadStep_eq, setupRenderEnvMapPassStep_eq,
    setupInvalidateRtxdiResourcesStep_eq, setupRenderTargetsStep_fst_eq,
    setupRtxdiContextStep_eq, setupRtxdiResourcesStep_fst_eq,
    setupMipmapPassesStep_eq, setupBindingSetsStep_eq, setupFinalizeStep_fst_eq]

theorem renderScene_environmentMapDirty {M : Type} [DecidableEq M] (i : FrameInputs M)
    (s : RendererState M) (h : s.frameStepMode = FrameStepMode.Disabled) :
    (renderScene i s).1.ui.environmentMapDirty = 0 := by
  simp [renderScene, h, framePasses, setupRenderPasses,
    stepFrameStepMode_eq, resolveEffectiveFrameIndex_snd_eq, stepResetRtxdiContext_eq,
    stepEnvironmentMapReload_fst_eq, setupView_eq, setupEnvMapDirtyStep_eq,
    setupShaderReloadStep_eq, setupRenderEnvMapPassStep_eq,
    setupInvalidateRtxdiResourcesStep_eq, setupRenderTargetsStep_fst_eq,
    setupRtxdiContextStep_eq, setupRtxdiResourcesStep_fst_eq,
    setupMipmapPassesStep_eq, setupBindingSetsStep_eq, setupFinalizeStep_fst_eq]

theorem iterateRenderScene_succ_right {M : Type} [DecidableEq M] (i : FrameInputs M)
    (n : Nat) (s : RendererState M) :
    iterateRenderScene i (n + 1) s = (renderScene i (iterateRenderScene i n s)).1 := by
  induction n generalizing s with
  | zero => rfl
  | succ n ih =>
      rw [show n + 1 + 1 = n + 1 + 1 from rfl]
      calc iterateRenderScene i (n + 1 + 1) s
          = iterateRenderScene i (n + 1) (renderScene i s).1 := rfl
        _ = (renderScene i (iterateRenderScene i n (renderScene i s).1)).1 := ih _
        _ = (renderScene i (iterateRenderScene i (n + 1) s)).1 := rfl

/-- One frame of the static-camera accumulation scenario preserves its
invariant and increments the counter. -/
theorem accumulationScenario_step (s : RendererState Int) (cnt : Nat)
    (h1 : s.frameStepMode = FrameStepMode.Disabled) (h2 : s.previousViewValid = true)
    (h3 : s.viewPrevious = 0) (h4 : s.ui.enableAccumulation = true)
    (h5 : s.ui.resetAccumulation = false) (h6 : s.ui.framesToAccumulate = 0)
    (h7 : s.ui.numAccumulatedFrames = cnt) :
    (renderScene baseInputs s).1.frameStepMode = FrameStepMode.Disabled ∧
    (renderScene baseInputs s).1.previousViewValid = true ∧
    (renderScene baseInputs s).1.viewPrevious = 0 ∧
    (renderScene baseInputs s).1.ui.enableAccumulation = true ∧
    (renderScene baseInputs s).1.ui.resetAccumulation = false ∧
    (renderScene baseInputs s).1.ui.framesToAccumulate = 0 ∧
    (renderScene baseInputs s).1.ui.numAccumulatedFrames = cnt + 1 := by
  refine ⟨renderScene_frameStepMode _ _ h1, renderScene_previousViewValid _ _ h1,
    ?_, ?_, renderScene_resetAccumulation _ _ h1, ?_, ?_⟩
  · rw [renderScene_viewPrevious _ _ h1]; rfl
  · rw [renderScene_enableAccumulation _ _ h1, h4]
  · rw [renderScene_framesToAccumulate _ _ h1, h6]
  · rw [renderScene_counter _ _ h1, h2, h3, h4, h5, h6, h7]
    simp [cameraIsStatic, updateNumAccumulatedFrames, baseInputs]

/-- The invariant of the static-camera accumulation scenario with cap 0
after n + 1 frames; in particular the counter equals n + 1. -/
theorem accumulationScenario_invariant (n : Nat) :
    (iterateRenderScene baseInputs (n + 1) (accumulationScenarioState 0)).frameStepMode =
        FrameStepMode.Disabled ∧
    (iterateRenderScene baseInputs (n + 1)
        (accumulationScenarioState 0)).previousViewValid = true ∧
    (iterateRenderScene baseInputs (n + 1) (accumulationScenarioState 0)).viewPrevious = 0 ∧
    (iterateRenderScene baseInputs (n + 1)
        (accumulationScenarioState 0)).ui.enableAccumulation = true ∧
    (iterateRenderScene baseInputs (n + 1)
        (accumulationScenarioState 0)).ui.resetAccumulation = false ∧
    (iterateRenderScene baseInputs (n + 1)
        (accumulationScenarioState 0)).ui.framesToAccumulate = 0 ∧
    (iterateRenderScene baseInputs (n + 1)
        (accumulationScenarioState 0)).ui.numAccumulatedFrames = n + 1 := by
  induction n with
  | zero => decide
  | succ n ih =>
      obtain ⟨i1, i2, i3, i4, i5, i6, i7⟩ := ih
      rw [iterateRenderScene_succ_right]
      exact accumulationScenario_step _ _ i1 i2 i3 i4 i5 i6 i7

/-! ### Claims -/

/-- C1: the specification requires the RTXDI resource bundle to be
invalidated and rebuilt whenever the active environment map resolution
differs from the resolution its PDF texture was built for, in width, in
height, or in both.  The source (main.cpp lines 512-517) conjoins the two
dimension tests, so a change in only one dimension keeps the stale bundle:
here the environment map is 1024 x 1024 while the bundle PDF texture is
2048 x 1024, the widths differ, and yet after the frame the bundle still
holds the 2048 x 1024 texture while the resampling lighting pass runs
against it. -/
theorem width_only_environment_change_keeps_stale_rtxdi_resources :
    environmentMapSizeOf baseInputs widthChangeState = { width := 1024, height := 1024 } ∧
    widthChangeState.rtxdiResources = some { width := 2048, height := 1024 } ∧
    (1024 : Nat) ≠ 2048 ∧
    envPdfSizeMismatch { width := 1024, height := 1024 }
        (some { width := 2048, height := 1024 }) = false ∧
    (renderScene baseInputs widthChangeState).1.rtxdiResources =
      some { width := 2048, height := 1024 } ∧
    FrameEvent.resamplingLighting
        { enableDenoiserInputPacking := true, enableSpecularMis := false } ∈
      (renderScene baseInputs widthChangeState).2 := by
  decide

/-- C3: the accumulated-frame counter policy.  Each frame the counter is
updated per the rule of main.cpp lines 758-772 (increment and clamp when
static, accumulating and unreset, else reset to 1); the accumulation weight
is 1 over the counter; starting from the first frame with a never-moving
camera, accumulation on and cap 4 the counter sequence over five frames is
1, 2, 3, 4, 4; with cap 0 the counter after n + 1 frames is n + 1, growing
without bound while the camera stays static. -/
theorem accumulation_counter_policy :
    (∀ (M : Type) [DecidableEq M] (i : FrameInputs M) (s : RendererState M),
      s.frameStepMode = FrameStepMode.Disabled →
      (renderScene i s).1.ui.numAccumulatedFrames =
        updateNumAccumulatedFrames
          (cameraIsStatic s.previousViewValid i.cameraMatrix
            (if s.frameIndex = 0 then i.cameraMatrix else s.viewPrevious))
          s.ui.enableAccumulation s.ui.resetAccumulation s.ui.framesToAccumulate
          s.ui.numAccumulatedFrames) ∧
    (∀ (static en reset : Bool) (cap n : Nat),
      updateNumAccumulatedFrames static en reset cap n =
        if static = true ∧ en = true ∧ reset = false then
          (if 0 < cap then min (n + 1) cap else n + 1)
        else 1) ∧
    (∀ n : Nat, accumulationWeight n = 1 / (n : ℚ)) ∧
    (accumulationCounterAfter 4 1 = 1 ∧ accumulationCounterAfter 4 2 = 2 ∧
      accumulationCounterAfter 4 3 = 3 ∧ accumulationCounterAfter 4 4 = 4 ∧
      accumulationCounterAfter 4 5 = 4) ∧
    (∀ n : Nat, accumulationCounterAfter 0 (n + 1) = n + 1) := by
  refine ⟨fun M _ i s h => renderScene_counter i s h, ?_, fun n => rfl, by decide, ?_⟩
  · intro static en reset cap n
    cases static <;> cases en <;> cases reset <;> simp [updateNumAccumulatedFrames]
  · intro n
    exact (accumulationScenario_invariant n).2.2.2.2.2.2

/-- C3 witness: the per-frame counter rule applied to the concrete warm
baseline state. -/
theorem accumulation_counter_policy_witness :
    (renderScene baseInputs baseState).1.ui.numAccumulatedFrames =
      updateNumAccumulatedFrames
        (cameraIsStatic baseState.previousViewValid baseInputs.cameraMatrix
          (if baseState.frameIndex = 0 then baseInputs.cameraMatrix
           else baseState.viewPrevious))
        baseState.ui.enableAccumulation baseState.ui.resetAccumulation
        baseState.ui.framesToAccumulate baseState.ui.numAccumulatedFrames :=
  accumulation_counter_policy.1 Int baseInputs baseState rfl

/-- C4: the rendering-mode to lighting-pass mapping of main.cpp
lines 908-936.  The resampling family runs exactly for the three ReStir
modes; the BRDF family exactly for BrdfDirectOnly and the two combined
modes; denoiser-input packing is always true on the BRDF family, true on
the resampling family for the plain and MIS modes and false for the
indirect-combined mode; the BRDF additive-blend and specular-MIS flags are
true exactly for the two combined modes; indirect estimation is enabled
only for the indirect-combined mode. -/
theorem rendering_mode_pass_selection :
    resamplingPassInvocation RenderingMode.BrdfDirectOnly = none ∧
    resamplingPassInvocation RenderingMode.ReStirDirectOnly =
      some { enableDenoiserInputPacking := true, enableSpecularMis := false } ∧
    resamplingPassInvocation RenderingMode.ReStirDirectBrdfMIS =
      some { enableDenoiserInputPacking := true, enableSpecularMis := true } ∧
    resamplingPassInvocation RenderingMode.ReStirDirectBrdfIndirect =
      some { enableDenoiserInputPacking := false, enableSpecularMis := true } ∧
    brdfRayPassInvocation RenderingMode.ReStirDirectOnly = none ∧
    brdfRayPassInvocation RenderingMode.BrdfDirectOnly =
      some { enableDenoiserInputPacking := true, enableIndirect := false,
             enableAdditiveBlend := false, enableSpecularMis := false } ∧
    brdfRayPassInvocation RenderingMode.ReStirDirectBrdfMIS =
      some { enableDenoiserInputPacking := true, enableIndirect := false,
             enableAdditiveBlend := true, enableSpecularMis := true } ∧
    brdfRayPassInvocation RenderingMode.ReStirDirectBrdfIndirect =
      some { enableDenoiserInputPacking := true, enableIndirect := true,
             enableAdditiveBlend := true, enableSpecularMis := true } ∧
    lightingEvents RenderingMode.BrdfDirectOnly =
      [FrameEvent.brdfRayLighting
        { enableDenoiserInputPacking := true, enableIndirect := false,
          enableAdditiveBlend := false, enableSpecularMis := false }] ∧
    lightingEvents RenderingMode.ReStirDirectOnly =
      [FrameEvent.resamplingLighting
        { enableDenoiserInputPacking := true, enableSpecularMis := false }] ∧
    lightingEvents RenderingMode.ReStirDirectBrdfMIS =
      [FrameEvent.resamplingLighting
          { enableDenoiserInputPacking := true, enableSpecularMis := true },
        FrameEvent.brdfRayLighting
          { enableDenoiserInputPacking := true, enableIndirect := false,
            enableAdditiveBlend := true, enableSpecularMis := true }] ∧
    lightingEvents RenderingMode.ReStirDirectBrdfIndirect =
      [FrameEvent.resamplingLighting
          { enableDenoiserInputPacking := false, enableSpecularMis := true },
        FrameEvent.brdfRayLighting
          { enableDenoiserInputPacking := true, enableIndirect := true,
            enableAdditiveBlend := true, enableSpecularMis := true }] := by
  decide

/-- C6: camera-static detection is exact equality of the current and
previous view matrices gated on a valid previous view; the very first frame
seeds the previous view from the current one yet is treated as not static
(counter 1); and any difference between the incoming camera matrix and the
stored previous view, however small, resets the counter to 1. -/
theorem camera_static_exact_equality :
    (∀ (M : Type) [DecidableEq M] (b : Bool) (v w : M),
      cameraIsStatic b v w = true ↔ b = true ∧ v = w) ∧
    (∀ (M : Type) [DecidableEq M] (i : FrameInputs M) (s : RendererState M),
      s.frameIndex = 0 → (setupView i s).viewPrevious = i.cameraMatrix) ∧
    (∀ (M : Type) [DecidableEq M] (i : FrameInputs M) (s : RendererState M),
      s.frameStepMode = FrameStepMode.Disabled → s.previousViewValid = false →
      (renderScene i s).1.ui.numAccumulatedFrames = 1) ∧
    (∀ (M : Type) [DecidableEq M] (i : FrameInputs M) (s : RendererState M),
      s.frameStepMode = FrameStepMode.Disabled → s.frameIndex ≠ 0 →
      i.cameraMatrix ≠ s.viewPrevious →
      (renderScene i s).1.ui.numAccumulatedFrames = 1) := by
  refine ⟨?_, ?_, ?_, ?_⟩
  · intro M _ b v w; cases b <;> simp [cameraIsStatic]
  · intro M _ i s h; simp [setupView_eq, h]
  · intro M _ i s h hp
    rw [renderScene_counter i s h, hp]
    simp [cameraIsStatic, updateNumAccumulatedFrames]
  · intro M _ i s h hf hv
    rw [renderScene_counter i s h]
    simp [cameraIsStatic, updateNumAccumulatedFrames, hf, hv]

/-- C6 witness: the exact-equality reading at concrete values, the fresh
first frame yielding counter 1, and a one-unit view change resetting the
warm state counter to 1. -/
theorem camera_static_exact_equality_witness :
    (cameraIsStatic true (0 : Int) 0 = true ↔ (true = true ∧ (0 : Int) = 0)) ∧
    (renderScene baseInputs (accumulationScenarioState 0)).1.ui.numAccumulatedFrames = 1 ∧
    (renderScene baseInputs movedCameraState).1.ui.numAccumulatedFrames = 1 :=
  ⟨camera_static_exact_equality.1 Int true 0 0,
    camera_static_exact_equality.2.2.1 Int baseInputs (accumulationScenarioState 0) rfl rfl,
    camera_static_exact_equality.2.2.2 Int baseInputs movedCameraState rfl
      (by decide) (by decide)⟩

/-- C7 counterexample: stepped once per rendered frame, a frame that starts
at dirty level 2 does not move to level 1: it performs the full reload AND
the PDF-mipmap regeneration within the same frame and ends at level 0. -/
theorem dirty_level_two_frame_ends_at_zero :
    dirtyLevelTwoState.ui.environmentMapDirty = 2 ∧
    (renderScene baseInputs dirtyLevelTwoState).1.ui.environmentMapDirty = 0 ∧
    (renderScene baseInputs dirtyLevelTwoState).1.ui.environmentMapDirty ≠ 1 ∧
    FrameEvent.environmentMapLoad ∈ (renderScene baseInputs dirtyLevelTwoState).2 ∧
    FrameEvent.environmentPdfMipmap ∈ (renderScene baseInputs dirtyLevelTwoState).2 := by
  decide

/-- C7 amended: a reload request sets the level to 2; within a single
rendered frame a level-2 start performs the full texture reload and the
level drops to 1 during resource setup; any nonzero level then triggers
PDF-mipmap regeneration and drops to 0 before the frame ends (shader
reloads and resource recreation can also raise the level to 1 mid-frame,
resolved to 0 the same way).  Hence every rendered frame ends at level 0,
and the full reload runs in exactly the frames that start at level 2. -/
theorem environment_map_dirty_per_frame_resolution :
    requestEnvironmentMapReload = 2 ∧
    (∀ (d : Nat) (rs rc : Bool),
      environmentMapFrameStep d rs rc =
        (0, decide (d = 2), decide (d ≠ 0) || rs || rc)) ∧
    (∀ (M : Type) [DecidableEq M] (s : RendererState M),
      s.ui.environmentMapDirty = 2 →
      (setupEnvMapDirtyStep s).ui.environmentMapDirty = 1) ∧
    (∀ (M : Type) [DecidableEq M] (i : FrameInputs M) (s : RendererState M),
      s.frameStepMode = FrameStepMode.Disabled →
      (renderScene i s).1.ui.environmentMapDirty = 0) ∧
    (∀ (M : Type) [DecidableEq M] (i : FrameInputs M) (s : RendererState M),
      s.frameStepMode = FrameStepMode.Disabled →
      (FrameEvent.environmentMapLoad ∈ (renderScene i s).2 ↔
        s.ui.environmentMapDirty = 2)) := by
  refine ⟨rfl, ?_, ?_, fun M _ i s h => renderScene_environmentMapDirty i s h, ?_⟩
  · intro d rs rc
    cases rs <;> cases rc <;> by_cases h : d = 2 <;> by_cases h0 : d = 0 <;>
      simp [environmentMapFrameStep, h, h0]
  · intro M _ s h; simp [setupEnvMapDirtyStep_eq, h]
  · intro M _ i s h
    simp only [renderScene, h]
    simp [stepFrameStepMode_eq, h, resolveEffectiveFrameIndex_snd_eq,
      stepResetRtxdiContext_eq, stepEnvironmentMapReload_fst_eq,
      stepEnvironmentMapReload_snd_eq, setupView_eq, setupRenderPasses,
      setupEnvMapDirtyStep_eq, setupShaderReloadStep_eq, setupRenderEnvMapPassStep_eq,
      setupInvalidateRtxdiResourcesStep_eq, setupRenderTargetsStep_fst_eq,
      setupRtxdiContextStep_eq, setupRtxdiResourcesStep_fst_eq, setupMipmapPassesStep_eq,
      setupBindingSetsStep_eq, setupFinalizeStep_fst_eq, framePasses, List.mem_append,
      environmentMapLoad_not_mem_tlasEvents, environmentMapLoad_not_mem_environmentResolveEvents,
      environmentMapLoad_not_mem_lightingEvents, environmentMapLoad_not_mem_postLightingEvents,
      environmentMapLoad_not_mem_finalBlitEvents, environmentMapLoad_not_mem_jitterChunk]

/-- C7 witness: the composite conjuncts applied to the concrete pending
level-2 state. -/
theorem environment_map_dirty_per_frame_resolution_witness :
    (renderScene baseInputs dirtyLevelTwoState).1.ui.environmentMapDirty = 0 ∧
    (FrameEvent.environmentMapLoad ∈ (renderScene baseInputs dirtyLevelTwoState).2 ↔
      dirtyLevelTwoState.ui.environmentMapDirty = 2) :=
  ⟨environment_map_dirty_per_frame_resolution.2.2.2.1 Int baseInputs dirtyLevelTwoState rfl,
    environment_map_dirty_per_frame_resolution.2.2.2.2 Int baseInputs dirtyLevelTwoState rfl⟩

/-- C8: while frame-step mode is wait, RenderScene only re-blits the image
chosen by the toggle cascade and returns: the state — frame counter,
accumulation counter, previous-view fields and all per-pass bookkeeping —
is unchanged, and a repeated call produces the identical result. -/
theorem frame_step_wait_is_pure_reblit :
    ∀ (M : Type) [DecidableEq M] (i : FrameInputs M) (s : RendererState M),
      s.frameStepMode = FrameStepMode.Wait →
      renderScene i s =
        (s, [FrameEvent.blit (chooseFinalImage s.ui.enableToneMapping
              s.ui.enableAccumulation s.ui.enableTAA)]) ∧
      renderScene i (renderScene i s).1 = renderScene i s := by
  intro M _ i s h
  constructor
  · simp [renderScene, h, waitModeEvents]
  · simp [renderScene, h, waitModeEvents]

/-- C8 witness: the wait-mode frame at the concrete frozen state. -/
theorem frame_step_wait_is_pure_reblit_witness :
    renderScene baseInputs waitModeState =
      (waitModeState, [FrameEvent.blit (chooseFinalImage
        waitModeState.ui.enableToneMapping waitModeState.ui.enableAccumulation
        waitModeState.ui.enableTAA)]) ∧
    renderScene baseInputs (renderScene baseInputs waitModeState).1 =
      renderScene baseInputs waitModeState :=
  frame_step_wait_is_pure_reblit Int baseInputs waitModeState rfl

/-- C9: when the selected environment-map file fails to load, the loader
reverts to the procedural sky — the texture handle is cleared, the
selection index becomes 0 and the failing entry is erased from the
selectable list — and the frame still executes its pass sequence (the
G-buffer pass runs). -/
theorem environment_map_load_failure_reverts_to_procedural :
    ∀ (M : Type) [DecidableEq M] (i : FrameInputs M) (s : RendererState M),
      0 < s.ui.environmentMapIndex →
      i.loadTexture (s.ui.environmentMaps.getD s.ui.environmentMapIndex.toNat 0) = none →
      (loadEnvironmentMap i s).environmentMap = none ∧
      (loadEnvironmentMap i s).ui.environmentMapIndex = 0 ∧
      (loadEnvironmentMap i s).ui.environmentMaps =
        s.ui.environmentMaps.eraseIdx s.ui.environmentMapIndex.toNat ∧
      (s.frameStepMode = FrameStepMode.Disabled →
        FrameEvent.gbufferFill ∈ (renderScene i s).2) := by
  intro M _ i s hpos hfail
  simp only [List.getD, List.get?_eq_getElem?] at hfail
  refine ⟨?_, ?_, ?_, ?_⟩
  · simp [loadEnvironmentMap, loadEnvironmentMapResult, hpos, hfail]
  · simp [loadEnvironmentMap, loadEnvironmentMapResult, hpos, hfail]
  · simp [loadEnvironmentMap, loadEnvironmentMapResult, hpos, hfail]
  · intro h
    simp [renderScene, h, stepFrameStepMode_eq, resolveEffectiveFrameIndex_snd_eq,
      stepResetRtxdiContext_eq, stepEnvironmentMapReload_fst_eq,
      stepEnvironmentMapReload_snd_eq, setupView_eq, setupRenderPasses,
      setupEnvMapDirtyStep_eq, setupShaderReloadStep_eq, setupRenderEnvMapPassStep_eq,
      setupInvalidateRtxdiResourcesStep_eq, setupRenderTargetsStep_fst_eq,
      setupRtxdiContextStep_eq, setupRtxdiResourcesStep_fst_eq, setupMipmapPassesStep_eq,
      setupBindingSetsStep_eq, setupFinalizeStep_fst_eq, framePasses, List.mem_append]

/-- C9 witness: the failure path at the concrete state whose selection
index 1 names a file the texture cache cannot load. -/
theorem environment_map_load_failure_witness :
    (loadEnvironmentMap baseInputs widthChangeState).environmentMap = none ∧
    (loadEnvironmentMap baseInputs widthChangeState).ui.environmentMapIndex = 0 ∧
    (loadEnvironmentMap baseInputs widthChangeState).ui.environmentMaps =
      widthChangeState.ui.environmentMaps.eraseIdx
        widthChangeState.ui.environmentMapIndex.toNat ∧
    (widthChangeState.frameStepMode = FrameStepMode.Disabled →
      FrameEvent.gbufferFill ∈ (renderScene baseInputs widthChangeState).2) :=
  environment_map_load_failure_reverts_to_procedural Int baseInputs widthChangeState
    (by decide) rfl

/-- C2: the resize handler (BackBufferResizing) releases the render
targets, the resampling context, the RTXDI resource bundle and the common
binding cache; the next frame, the resource-setup prefix recreates the
render targets and the context sized exactly to the new framebuffer
extent; and outside wait mode RenderScene executes all passes on exactly
the state that resource setup produced. -/
theorem resize_releases_bundles_and_recreates_at_new_size :
    ∀ (M : Type) [DecidableEq M] (i : FrameInputs M) (s : RendererState M),
      (backBufferResizing s).renderTargets = none ∧
      (backBufferResizing s).rtxdiContext = none ∧
      (backBufferResizing s).rtxdiResources = none ∧
      (backBufferResizing s).bindingCachePopulated = false ∧
      (frameResourceSetup i (backBufferResizing s)).renderTargets = some i.fbinfo ∧
      (frameResourceSetup i (backBufferResizing s)).rtxdiContext =
        some { s.ui.rtxdiContextParams with
                 renderWidth := i.fbinfo.width, renderHeight := i.fbinfo.height } ∧
      (s.frameStepMode = FrameStepMode.Disabled →
        renderScene i (backBufferResizing s) =
          ((framePasses (frameResourceSetup i (backBufferResizing s))
              (resolveEffectiveFrameIndex i (backBufferResizing s)).1).1,
            (stepEnvironmentMapReload i (stepResetRtxdiContext
                (resolveEffectiveFrameIndex i (backBufferResizing s)).2)).2 ++
              (framePasses (frameResourceSetup i (backBufferResizing s))
                (resolveEffectiveFrameIndex i (backBufferResizing s)).1).2)) := by
  intro M _ i s
  refine ⟨rfl, rfl, rfl, rfl, ?_, ?_, ?_⟩
  · simp [frameResourceSetup, backBufferResizing, stepFrameStepMode_eq,
      resolveEffectiveFrameIndex_snd_eq, stepResetRtxdiContext_eq,
      stepEnvironmentMapReload_fst_eq, setupView_eq, setupRenderPasses,
      setupEnvMapDirtyStep_eq, setupShaderReloadStep_eq, setupRenderEnvMapPassStep_eq,
      setupInvalidateRtxdiResourcesStep_eq, setupRenderTargetsStep_fst_eq,
      setupRtxdiContextStep_eq, setupRtxdiResourcesStep_fst_eq, setupMipmapPassesStep_eq,
      setupBindingSetsStep_eq, setupFinalizeStep_fst_eq, envPdfSizeMismatch]
  · simp [frameResourceSetup, backBufferResizing, stepFrameStepMode_eq,
      resolveEffectiveFrameIndex_snd_eq, stepResetRtxdiContext_eq,
      stepEnvironmentMapReload_fst_eq, setupView_eq, setupRenderPasses,
      setupEnvMapDirtyStep_eq, setupShaderReloadStep_eq, setupRenderEnvMapPassStep_eq,
      setupInvalidateRtxdiResourcesStep_eq, setupRenderTargetsStep_fst_eq,
      setupRtxdiContextStep_eq, setupRtxdiResourcesStep_fst_eq, setupMipmapPassesStep_eq,
      setupBindingSetsStep_eq, setupFinalizeStep_fst_eq, envPdfSizeMismatch]
  · intro h
    have hm : (backBufferResizing s).frameStepMode = FrameStepMode.Disabled := h
    have hstep : stepFrameStepMode (backBufferResizing s) = backBufferResizing s := by
      unfold stepFrameStepMode
      rw [hm]
      simp
    simp [renderScene, frameResourceSetup, hm, hstep]

/-- C2 witness: the decomposition conjunct discharged at the concrete warm
state after a resize. -/
theorem resize_releases_bundles_witness :
    (frameResourceSetup baseInputs (backBufferResizing baseState)).renderTargets =
      some baseInputs.fbinfo ∧
    renderScene baseInputs (backBufferResizing baseState) =
      ((framePasses (frameResourceSetup baseInputs (backBufferResizing baseState))
          (resolveEffectiveFrameIndex baseInputs (backBufferResizing baseState)).1).1,
        (stepEnvironmentMapReload baseInputs (stepResetRtxdiContext
            (resolveEffectiveFrameIndex baseInputs (backBufferResizing baseState)).2)).2 ++
          (framePasses (frameResourceSetup baseInputs (backBufferResizing baseState))
            (resolveEffectiveFrameIndex baseInputs (backBufferResizing baseState)).1).2) :=
  ⟨(resize_releases_bundles_and_recreates_at_new_size Int baseInputs
      baseState).2.2.2.2.1,
    (resize_releases_bundles_and_recreates_at_new_size Int baseInputs
      baseState).2.2.2.2.2.2 rfl⟩

/-- C5 counterexample: with freeze-random on, accumulation on, checkerboard
sampling on and the monotonic frame counter odd, the effective frame index
is 0 — even — yet the TAA jitter advance is skipped: the guard at main.cpp
line 753 reads m_FrameIndex, not the effective frame index, refuting the
claimed equivalence. -/
theorem taa_jitter_effective_index_counterexample :
    (resolveEffectiveFrameIndex baseInputs jitterCounterexampleState).1 = 0 ∧
    (resolveEffectiveFrameIndex baseInputs jitterCounterexampleState).1 % 2 ≠ 1 ∧
    jitterCounterexampleState.ui.enableAccumulation = true ∧
    jitterCounterexampleState.rtxdiContext =
      some { baseContextParams with checkerboardSamplingMode := CheckerboardMode.Black } ∧
    FrameEvent.taaJitterAdvance ∉ (renderScene baseInputs jitterCounterexampleState).2 := by
  decide

/-- C5 amended: the TAA jitter advance is skipped if and only if
accumulation is enabled, the context checkerboard mode is not Off, and the
MONOTONIC frame counter m_FrameIndex is odd; the effective frame index
plays no role in the guard. -/
theorem taa_jitter_skip_iff_monotonic_frame_odd :
    ∀ (M : Type) [DecidableEq M] (i : FrameInputs M) (s : RendererState M)
      (p : ContextParameters),
      s.frameStepMode = FrameStepMode.Disabled →
      s.ui.resetRtxdiContext = false →
      s.rtxdiContext = some p →
      (FrameEvent.taaJitterAdvance ∈ (renderScene i s).2 ↔
        ¬(s.ui.enableAccumulation = true ∧
          p.checkerboardSamplingMode ≠ CheckerboardMode.Off ∧ s.frameIndex % 2 = 1)) := by
  intro M _ i s p h hr hc
  simp [renderScene, h, hr, hc, stepFrameStepMode_eq, resolveEffectiveFrameIndex_snd_eq,
    stepResetRtxdiContext_eq, stepEnvironmentMapReload_fst_eq,
    stepEnvironmentMapReload_snd_eq, setupView_eq, setupRenderPasses,
    setupEnvMapDirtyStep_eq, setupShaderReloadStep_eq, setupRenderEnvMapPassStep_eq,
    setupInvalidateRtxdiResourcesStep_eq, setupRenderTargetsStep_fst_eq,
    setupRtxdiContextStep_eq, setupRtxdiResourcesStep_fst_eq, setupMipmapPassesStep_eq,
    setupBindingSetsStep_eq, setupFinalizeStep_fst_eq, framePasses, List.mem_append,
    taaJitterAdvance_not_mem_tlasEvents, taaJitterAdvance_not_mem_environmentResolveEvents,
    taaJitterAdvance_not_mem_lightingEvents, taaJitterAdvance_not_mem_postLightingEvents,
    taaJitterAdvance_not_mem_finalBlitEvents, taaJitterAdvance_not_mem_loadChunk]
  by_cases hs : s.ui.enableAccumulation = true ∧
      p.checkerboardSamplingMode ≠ CheckerboardMode.Off ∧ s.frameIndex % 2 = 1
  · obtain ⟨h1, h2, h3⟩ := hs
    have hb : skipTaaJitterAdvance true p.checkerboardSamplingMode s.frameIndex = true :=
      (skipTaaJitterAdvance_true_iff _ _ _).mpr ⟨rfl, h2, h3⟩
    simp [h1, h2, h3, hb]
  · have hb : skipTaaJitterAdvance s.ui.enableAccumulation p.checkerboardSamplingMode
        s.frameIndex = false :=
      Bool.eq_false_iff.mpr fun hb => hs ((skipTaaJitterAdvance_true_iff _ _ _).mp hb)
    simp [hb]
    intro h1 h2
    rcases Nat.mod_two_eq_zero_or_one s.frameIndex with h3 | h3
    · exact h3
    · exact absurd ⟨h1, h2, h3⟩ hs

/-- C5 amended witness: the equivalence at the concrete odd-frame state
with checkerboard sampling. -/
theorem taa_jitter_skip_iff_witness :
    FrameEvent.taaJitterAdvance ∈ (renderScene baseInputs jitterCounterexampleState).2 ↔
      ¬(jitterCounterexampleState.ui.enableAccumulation = true ∧
        ({ baseContextParams with checkerboardSamplingMode := CheckerboardMode.Black } :
            ContextParameters).checkerboardSamplingMode ≠ CheckerboardMode.Off ∧
        jitterCounterexampleState.frameIndex % 2 = 1) :=
  taa_jitter_skip_iff_monotonic_frame_odd Int baseInputs jitterCounterexampleState _
    rfl rfl rfl

/-- C10: in frame-step wait mode the re-blitted image follows the fixed
priority of main.cpp lines 656-663: LDR color under tone mapping, else the
accumulated color under accumulation, else the TAA-resolved color under
TAA, else the raw HDR color. -/
theorem wait_mode_blit_selection_priority :
    ∀ (M : Type) [DecidableEq M] (i : FrameInputs M) (s : RendererState M),
      s.frameStepMode = FrameStepMode.Wait →
      ((renderScene i s).2 = [FrameEvent.blit BlitSource.LdrColor] ↔
        s.ui.enableToneMapping = true) ∧
      ((renderScene i s).2 = [FrameEvent.blit BlitSource.AccumulatedColor] ↔
        (s.ui.enableToneMapping = false ∧ s.ui.enableAccumulation = true)) ∧
      ((renderScene i s).2 = [FrameEvent.blit BlitSource.ResolvedColor] ↔
        (s.ui.enableToneMapping = false ∧ s.ui.enableAccumulation = false ∧
          s.ui.enableTAA = true)) ∧
      ((renderScene i s).2 = [FrameEvent.blit BlitSource.HdrColor] ↔
        (s.ui.enableToneMapping = false ∧ s.ui.enableAccumulation = false ∧
          s.ui.enableTAA = false)) := by
  intro M _ i s h
  cases htm : s.ui.enableToneMapping <;> cases hacc : s.ui.enableAccumulation <;>
    cases htaa : s.ui.enableTAA <;>
    simp [renderScene, h, waitModeEvents, chooseFinalImage, htm, hacc, htaa]

/-- C10 witness: the blit-priority reading at the concrete frozen state,
whose toggles are all off, so the raw HDR color is re-blitted. -/
theorem wait_mode_blit_selection_priority_witness :
    (renderScene baseInputs waitModeState).2 = [FrameEvent.blit BlitSource.HdrColor] ↔
      (waitModeState.ui.enableToneMapping = false ∧
        waitModeState.ui.enableAccumulation = false ∧
        waitModeState.ui.enableTAA = false) :=
  (wait_mode_blit_selection_priority Int baseInputs waitModeState rfl).2.2.2

end RTXDI
